import Mathlib

/-!
Shallow embedding of the moonshine Hydra synchronization bridge
(src/bin/hydra/mesh.cpp, src/bin/hydra/material.cpp, hydra/renderParam.hpp).

Machine floats (GfVec*f, GfMatrix4f entries, texture scalars) are modelled as
exact numbers: `Int` for geometry, `Rat` for material scalar values.  The
target renderer (HdMoonshine* API) is modelled as an event trace plus a fresh
handle counter; host scene-graph accessors (HdSceneDelegate, HdMeshUtil,
HioImage, SdrRegistry) are modelled as input data the sync functions consume,
mirroring what each call site reads.
-/

/-- Two-component float vector (GfVec2f), entries modelled as Int. -/
structure V2 where
  x : Int
  y : Int
deriving DecidableEq, Repr

/-- Three-component float vector (GfVec3f), entries modelled as Int. -/
structure V3 where
  x : Int
  y : Int
  z : Int
deriving DecidableEq, Repr

/-- Four-component float vector (F32x4 / one row of GfMatrix4f). -/
structure V4 where
  a : Int
  b : Int
  c : Int
  d : Int
deriving DecidableEq, Repr

/-- Row-major 4x4 matrix (GfMatrix4f); `r0` is row 0, so the C++ `m[i][j]`
is field `j` of row `i`. -/
structure Mat4 where
  r0 : V4
  r1 : V4
  r2 : V4
  r3 : V4
deriving DecidableEq, Repr

def v4dot (u v : V4) : Int := u.a * v.a + u.b * v.b + u.c * v.c + u.d * v.d

def Mat4.col0 (m : Mat4) : V4 := ⟨m.r0.a, m.r1.a, m.r2.a, m.r3.a⟩
def Mat4.col1 (m : Mat4) : V4 := ⟨m.r0.b, m.r1.b, m.r2.b, m.r3.b⟩
def Mat4.col2 (m : Mat4) : V4 := ⟨m.r0.c, m.r1.c, m.r2.c, m.r3.c⟩
def Mat4.col3 (m : Mat4) : V4 := ⟨m.r0.d, m.r1.d, m.r2.d, m.r3.d⟩

/-- GfMatrix4f multiplication: `(a*b)[i][j] = sum_k a[i][k]*b[k][j]`. -/
def mat4Mul (p q : Mat4) : Mat4 :=
  ⟨⟨v4dot p.r0 q.col0, v4dot p.r0 q.col1, v4dot p.r0 q.col2, v4dot p.r0 q.col3⟩,
   ⟨v4dot p.r1 q.col0, v4dot p.r1 q.col1, v4dot p.r1 q.col2, v4dot p.r1 q.col3⟩,
   ⟨v4dot p.r2 q.col0, v4dot p.r2 q.col1, v4dot p.r2 q.col2, v4dot p.r2 q.col3⟩,
   ⟨v4dot p.r3 q.col0, v4dot p.r3 q.col1, v4dot p.r3 q.col2, v4dot p.r3 q.col3⟩⟩

/-- GfMatrix4f(1.0): the identity matrix. -/
def mat4Id : Mat4 :=
  ⟨⟨1, 0, 0, 0⟩, ⟨0, 1, 0, 0⟩, ⟨0, 0, 1, 0⟩, ⟨0, 0, 0, 1⟩⟩

/-- Mat3x4 as built in mesh.cpp:245-249 / 256-260: row `x` of the result is
`(t[0][0], t[1][0], t[2][0], t[3][0])`, i.e. column 0 of the GfMatrix4f,
and likewise `y`/`z` from columns 1/2. -/
structure Mat3x4 where
  x : V4
  y : V4
  z : V4
deriving DecidableEq, Repr

def toMat3x4 (t : Mat4) : Mat3x4 := ⟨t.col0, t.col1, t.col2⟩

/-- Moonshine texture formats named in material.cpp (usdFormatToMsneFormat). -/
inductive TextureFormat where
  | f16x4
  | u8x1
  | u8x2
  | u8x4
  | u8x4srgb
deriving DecidableEq, Repr

/-- Component data types of the Hio formats that material.cpp touches. -/
inductive HioType where
  | u8
  | f16
  | otherType
deriving DecidableEq, Repr

/-- HioGetDataSizeOfType: bytes per component. -/
def hioTypeSize : HioType → Nat
  | .u8 => 1
  | .f16 => 2
  | .otherType => 4

/-- A Hio pixel format as the (type, component count, srgb) triple that the
enumerators compared in usdFormatToMsneFormat denote. -/
structure HioFmt where
  ty : HioType
  count : Nat
  srgb : Bool
deriving DecidableEq, Repr

/-- HioGetFormat, modelled from the Hio collaborator: display-encoded (srgb)
format variants exist only for the 8-bit unorm types, so the srgb request is
dropped for every other component type. -/
def hioGetFormat (count : Nat) (ty : HioType) (srgb : Bool) : HioFmt :=
  ⟨ty, count, srgb && (ty == HioType.u8)⟩

/-- usdFormatToMsneFormat (material.cpp:48-66), branch for branch.  The C++
compares against Hio enumerators; here each enumerator is its
(type, count, srgb) triple. -/
def usdFormatToMsneFormat (f : HioFmt) : Option TextureFormat :=
  if f = ⟨.f16, 3, false⟩ then some .f16x4
  else if f = ⟨.u8, 1, false⟩ then some .u8x1
  else if f = ⟨.u8, 2, false⟩ then some .u8x2
  else if f = ⟨.u8, 4, false⟩ then some .u8x4
  else if f = ⟨.u8, 3, false⟩ then some .u8x4
  else if f = ⟨.u8, 4, true⟩ then some .u8x4srgb
  else if f = ⟨.u8, 3, true⟩ then some .u8x4srgb
  else none

/-- A decoded image (HioImage after Read): dimensions, source pixel format,
and the raw bytes the decoder wrote (already row-flipped; flipping is done by
the external decoder via spec.flipped). -/
structure HioImage where
  width : Nat
  height : Nat
  ty : HioType
  count : Nat
  srgb : Bool
  bytes : List Nat
deriving DecidableEq, Repr

/-- A scene value handed to makeTexture (VtValue): asset path resolved to its
decoded image, inline GfVec3f, inline float, or anything else. -/
inductive Value where
  | asset (img : HioImage)
  | vec3 (x y z : Rat)
  | scalar (v : Rat)
  | unknown
deriving DecidableEq, Repr

/-- VtValue::Get of float on a value of a different shape is undefined in the
C++; modelled as 0.  Claims never exercise that case. -/
def Value.getFloat : Value → Rat
  | .scalar v => v
  | _ => 0

/-- Material description passed to HdMoonshineCreateMaterial. -/
structure MaterialDesc where
  normal : Nat
  emissive : Nat
  color : Nat
  metalness : Nat
  roughness : Nat
  ior : Rat
deriving DecidableEq, Repr

/-- Renderer calls observable at the HdMoonshine* API boundary.  Creation
calls carry the handle they return.  `destroyMesh` and `destroyTexture` are
modelled from the spec (the renderer-release calls a leak-free implementation
would issue; mesh.cpp:176 carries the corresponding TODO) and exist in the
alphabet so that their absence from every trace is expressible; no sync code
path emits them.  `setInstanceTransform` carries an Option handle: `none`
records that the C++ indexed `_instances[i]` out of bounds.  `leftoverDirty`
is the dedicated TF_CODING_ERROR at the end of Sync reporting unconsumed
dirty bits (mesh.cpp:273, material.cpp:253); other TF_CODING_ERROR call
sites are `codingError`. -/
inductive Event where
  | createMesh (handle : Nat) (points : List V3) (normals : List V3) (texcoords : List V2)
  | destroyMesh (handle : Nat)
  | createInstance (handle : Nat) (matrix : Mat3x4) (mesh : Option Nat) (material : Nat) (visible : Bool)
  | destroyInstance (handle : Nat)
  | setInstanceTransform (handle : Option Nat) (matrix : Mat3x4)
  | setInstanceVisibility (handle : Nat) (visible : Bool)
  | createSolidTexture1 (handle : Nat) (v : Rat) (name : String)
  | createSolidTexture2 (handle : Nat) (x y : Rat) (name : String)
  | createSolidTexture3 (handle : Nat) (x y z : Rat) (name : String)
  | createRawTexture (handle : Nat) (data : List Nat) (width height : Nat) (fmt : TextureFormat) (name : String)
  | destroyTexture (handle : Nat)
  | createMaterial (handle : Nat) (desc : MaterialDesc)
  | setMaterialColor (handle : Nat) (tex : Nat)
  | setMaterialEmissive (handle : Nat) (tex : Nat)
  | setMaterialNormal (handle : Nat) (tex : Nat)
  | setMaterialRoughness (handle : Nat) (tex : Nat)
  | setMaterialMetalness (handle : Nat) (tex : Nat)
  | setMaterialIOR (handle : Nat) (ior : Rat)
  | codingError (msg : String)
  | leftoverDirty
deriving DecidableEq, Repr

/-- The renderer (HdMoonshine): fresh-handle counter plus the trace of calls
issued so far. -/
structure Msne where
  nextHandle : Nat
  events : List Event
deriving DecidableEq, Repr

def Msne.emit (m : Msne) (e : Event) : Msne :=
  { m with events := m.events ++ [e] }

def Msne.fresh (m : Msne) : Msne × Nat :=
  ({ m with nextHandle := m.nextHandle + 1 }, m.nextHandle)

def HdMoonshineCreateMesh (m : Msne) (points normals : List V3) (texcoords : List V2) : Msne × Nat :=
  let (m, h) := m.fresh
  (m.emit (.createMesh h points normals texcoords), h)

def HdMoonshineCreateInstance (m : Msne) (matrix : Mat3x4) (mesh : Option Nat) (material : Nat) (visible : Bool) : Msne × Nat :=
  let (m, h) := m.fresh
  (m.emit (.createInstance h matrix mesh material visible), h)

def HdMoonshineDestroyInstance (m : Msne) (h : Nat) : Msne :=
  m.emit (.destroyInstance h)

def HdMoonshineSetInstanceTransform (m : Msne) (h : Option Nat) (matrix : Mat3x4) : Msne :=
  m.emit (.setInstanceTransform h matrix)

def HdMoonshineSetInstanceVisibility (m : Msne) (h : Nat) (visible : Bool) : Msne :=
  m.emit (.setInstanceVisibility h visible)

def HdMoonshineCreateSolidTexture1 (m : Msne) (v : Rat) (name : String) : Msne × Nat :=
  let (m, h) := m.fresh
  (m.emit (.createSolidTexture1 h v name), h)

def HdMoonshineCreateSolidTexture2 (m : Msne) (x y : Rat) (name : String) : Msne × Nat :=
  let (m, h) := m.fresh
  (m.emit (.createSolidTexture2 h x y name), h)

def HdMoonshineCreateSolidTexture3 (m : Msne) (x y z : Rat) (name : String) : Msne × Nat :=
  let (m, h) := m.fresh
  (m.emit (.createSolidTexture3 h x y z name), h)

def HdMoonshineCreateRawTexture (m : Msne) (data : List Nat) (width height : Nat) (fmt : TextureFormat) (name : String) : Msne × Nat :=
  let (m, h) := m.fresh
  (m.emit (.createRawTexture h data width height fmt name), h)

def HdMoonshineCreateMaterial (m : Msne) (desc : MaterialDesc) : Msne × Nat :=
  let (m, h) := m.fresh
  (m.emit (.createMaterial h desc), h)

def HdMoonshineSetMaterialColor (m : Msne) (handle tex : Nat) : Msne :=
  m.emit (.setMaterialColor handle tex)

def HdMoonshineSetMaterialEmissive (m : Msne) (handle tex : Nat) : Msne :=
  m.emit (.setMaterialEmissive handle tex)

def HdMoonshineSetMaterialNormal (m : Msne) (handle tex : Nat) : Msne :=
  m.emit (.setMaterialNormal handle tex)

def HdMoonshineSetMaterialRoughness (m : Msne) (handle tex : Nat) : Msne :=
  m.emit (.setMaterialRoughness handle tex)

def HdMoonshineSetMaterialMetalness (m : Msne) (handle tex : Nat) : Msne :=
  m.emit (.setMaterialMetalness handle tex)

def HdMoonshineSetMaterialIOR (m : Msne) (handle : Nat) (ior : Rat) : Msne :=
  m.emit (.setMaterialIOR handle ior)

def codingErr (m : Msne) (msg : String) : Msne :=
  m.emit (.codingError msg)

def leftoverDirtyReport (m : Msne) : Msne :=
  m.emit .leftoverDirty

/-- HdMoonshineRenderParam (renderParam.hpp:9-37): handles of the default
resources created once at construction. -/
structure RenderParam where
  black3 : Nat
  black1 : Nat
  upNormal : Nat
  grey3 : Nat
  white1 : Nat
  defaultMaterial : Nat
deriving DecidableEq, Repr

/-- HdMoonshineRenderParam constructor (renderParam.hpp:12-26). -/
def mkRenderParam (m : Msne) : RenderParam × Msne :=
  let (m, black3) := HdMoonshineCreateSolidTexture3 m 0 0 0 "black3"
  let (m, black1) := HdMoonshineCreateSolidTexture1 m 0 "black1"
  let (m, upNormal) := HdMoonshineCreateSolidTexture2 m (1/2) (1/2) "up normal"
  let (m, grey3) := HdMoonshineCreateSolidTexture3 m (1/2) (1/2) (1/2) "grey3"
  let (m, white1) := HdMoonshineCreateSolidTexture1 m 1 "white1"
  let (m, defaultMaterial) := HdMoonshineCreateMaterial m
    { normal := upNormal, emissive := black3, color := grey3,
      metalness := black1, roughness := white1, ior := 3/2 }
  (⟨black3, black1, upNormal, grey3, white1, defaultMaterial⟩, m)

/-- HdInterpolation values (pxr/imaging/hd); HdInterpolationCount = 6. -/
inductive Interp where
  | constant
  | uniform
  | varying
  | vertex
  | faceVarying
  | inst
deriving DecidableEq, Repr

/-- What the scene delegate knows about one named primvar, as read by
HdMoonshineMesh::ComputePrimvar (mesh.cpp:72-101): `value` is the boxed
`sceneDelegate->Get` result when it holds `VtArray<T>` (`none` otherwise),
`interp` is the net result of FindPrimvarInterpolation (mesh.cpp:43-59),
and `fvTriangulated` is the ComputeTriangulatedFaceVaryingPrimvar result the
external HdMeshUtil collaborator produces for it. -/
structure PrimvarData (α : Type) where
  value : Option (List α)
  interp : Option Interp
  fvTriangulated : List α
deriving DecidableEq, Repr

/-- Expand an indexed attribute to per-triangle-corner order: for each
triangle index triple, push the three indexed entries (mesh.cpp:90-94 and
mesh.cpp:146-150).  Out-of-range VtArray indexing is undefined in the C++;
modelled with a default element. -/
def unindexBy {α : Type} (dflt : α) (v : List α) (indices : List (Nat × Nat × Nat)) : List α :=
  indices.foldl (fun acc idx =>
    acc ++ [v.getD idx.1 dflt, v.getD idx.2.1 dflt, v.getD idx.2.2 dflt]) []

/-- HdMoonshineMesh::ComputePrimvar (mesh.cpp:72-101).  The diagnostic that
the unknown-interpolation branch reports (mesh.cpp:96) is not part of the
returned value; the branch leaves the primvar empty. -/
def ComputePrimvar {α : Type} (dflt : α) (pd : PrimvarData α) (indices : List (Nat × Nat × Nat)) : List α :=
  match pd.value with
  | none => []
  | some v =>
    match pd.interp with
    | none => []
    | some .faceVarying => pd.fvTriangulated
    | some .vertex => unindexBy dflt v indices
    | some _ => []

/-- Everything HdMoonshineMesh::Sync reads from the host for one call:
the triangulated topology (HdMeshUtil::ComputeTriangleIndices result), the
computed/animated points if an ext-computation points primvar exists
(mesh.cpp:121-132; `[]` when none), the authored points, the st/st0/normals
primvars, the local-to-world transform, the visibility flag, the material
binding, and the instancer binding with its resolved per-instance
transforms.  `materialBinding = none` models an empty material id;
`some none` a non-empty id whose material sprim is not realized; and
`some (some h)` a realized material with handle `h`. -/
structure MeshSceneData where
  indices : List (Nat × Nat × Nat)
  computedPoints : List V3
  authoredPoints : List V3
  st : PrimvarData V2
  st0 : PrimvarData V2
  normals : PrimvarData V3
  transform : Mat4
  visible : Bool
  materialBinding : Option (Option Nat)
  instancerId : Option Unit
  instancerTransforms : List Mat4
deriving DecidableEq, Repr

/-- The dirty bits HdMoonshineMesh::Sync consumes, plus `other` standing for
any remaining HdChangeTracker bit (they reach the final IsClean check
unconsumed). -/
structure DirtyBits where
  points : Bool
  transform : Bool
  instancer : Bool
  visibility : Bool
  materialId : Bool
  other : Bool
deriving DecidableEq, Repr

def DirtyBits.isClean (d : DirtyBits) : Bool :=
  !d.points && !d.transform && !d.instancer && !d.visibility && !d.materialId && !d.other

/-- HdMoonshineMesh::GetInitialDirtyBitsMask (mesh.cpp:29-35). -/
def GetInitialDirtyBitsMask : DirtyBits :=
  ⟨true, true, true, true, true, false⟩

/-- Per-mesh sync record: `_mesh`, `_material`, `_transform`,
`_instancesTransforms`, `_instances` and the shared visibility flag.
`mesh = none` models the not-yet-created geometry handle. -/
structure MeshRecord where
  mesh : Option Nat
  material : Nat
  transform : Mat4
  instancesTransforms : List Mat4
  instances : List Nat
  visible : Bool
deriving DecidableEq, Repr

/-- HdMoonshineMesh constructor (mesh.cpp:25-27): `_material` starts as the
render param default; an HdRprim starts visible; `_transform` is a
default-constructed GfMatrix4f (value irrelevant before the first sync,
modelled as the identity). -/
def mkMeshRecord (rp : RenderParam) : MeshRecord :=
  { mesh := none, material := rp.defaultMaterial, transform := mat4Id,
    instancesTransforms := [], instances := [], visible := true }

/-- Texcoord primvar choice (mesh.cpp:152-172): try `st` then `st0`, taking
the first whose FindPrimvarInterpolation is non-empty, then run
ComputePrimvar on it; empty if neither is present. -/
def pickTexcoords (s : MeshSceneData) : List V2 :=
  if s.st.interp.isSome then ComputePrimvar ⟨0, 0⟩ s.st s.indices
  else if s.st0.interp.isSome then ComputePrimvar ⟨0, 0⟩ s.st0 s.indices
  else []

structure MeshSyncResult where
  prim : MeshRecord
  dirty : DirtyBits
  msne : Msne
deriving DecidableEq, Repr

/-- Visibility block (mesh.cpp:182-187): `_UpdateVisibility` re-reads the
scene visibility, and the bit is cleared. -/
def visibilityBlock (r : MeshRecord) (d : DirtyBits) (s : MeshSceneData) : MeshRecord × DirtyBits :=
  if d.visibility then ({ r with visible := s.visible }, { d with visibility := false })
  else (r, d)

/-- Material-binding block (mesh.cpp:189-203): empty binding takes the render
param default; a binding whose material sprim is not realized leaves
`_material` unchanged; a realized binding takes its handle.  The bit is
cleared in every case. -/
def materialBlock (rp : RenderParam) (r : MeshRecord) (d : DirtyBits) (s : MeshSceneData) : MeshRecord × DirtyBits :=
  if d.materialId then
    (match s.materialBinding with
     | none => { r with material := rp.defaultMaterial }
     | some none => r
     | some (some h) => { r with material := h },
     { d with materialId := false })
  else (r, d)

/-- Transform block (mesh.cpp:207-210). -/
def transformBlock (r : MeshRecord) (d : DirtyBits) (s : MeshSceneData) : MeshRecord × DirtyBits :=
  if d.transform then ({ r with transform := s.transform }, { d with transform := false })
  else (r, d)

/-- The per-instance transform list the instancer block recomputes
(mesh.cpp:221-229): a single identity when no instancer is bound, else the
instancer's resolved transforms. -/
def newInstancerTransforms (s : MeshSceneData) : List Mat4 :=
  match s.instancerId with
  | none => [mat4Id]
  | some _ => s.instancerTransforms

/-- Instancer block (mesh.cpp:218-233). -/
def instancerBlock (r : MeshRecord) (d : DirtyBits) (s : MeshSceneData) : MeshRecord × DirtyBits :=
  if d.instancer then
    ({ r with instancesTransforms := newInstancerTransforms s }, { d with instancer := false })
  else (r, d)

/-- Full rebuild (mesh.cpp:237-251): destroy every held instance handle,
then create one instance per stored transform, composing the entity
transform with each per-instance transform. -/
def rebuildInstances (r : MeshRecord) (new_visibility : Bool) (m : Msne) : List Nat × Msne :=
  let m := r.instances.foldl HdMoonshineDestroyInstance m
  r.instancesTransforms.foldl
    (fun (p : List Nat × Msne) t =>
      let matrix := toMat3x4 (mat4Mul r.transform t)
      let q := HdMoonshineCreateInstance p.2 matrix r.mesh r.material new_visibility
      (p.1 ++ [q.2], q.1)) ([], m)

/-- In-place transform update (mesh.cpp:253-263): the C++ indexes
`_instances[i]` for `i` up to `_instancesTransforms.size()`. -/
def updateInstanceTransforms (r : MeshRecord) (m : Msne) : Msne :=
  (List.range r.instancesTransforms.length).foldl
    (fun m i => HdMoonshineSetInstanceTransform m r.instances[i]?
      (toMat3x4 (mat4Mul r.transform (r.instancesTransforms.getD i mat4Id)))) m

/-- In-place visibility update (mesh.cpp:265-269). -/
def updateInstanceVisibility (r : MeshRecord) (vis : Bool) (m : Msne) : Msne :=
  r.instances.foldl (fun m h => HdMoonshineSetInstanceVisibility m h vis) m

/-- HdMoonshineMesh::Sync after the points block (mesh.cpp:182-275).
Note mesh.cpp:216 declares `bool instancer_count_changed = false;` and the
branch at mesh.cpp:218-233 declares a NEW local of the same name at line
231, shadowing the outer flag; the outer flag read by `need_to_recreate`
(mesh.cpp:236) is never assigned and stays false, which this definition
mirrors (the shadowed inner value is the unused `_inner` binding).
`material_changed` is read before the material block runs
(mesh.cpp:190) and `transform_changed` before the transform block runs
(mesh.cpp:205), matching the C++ order. -/
def HdMoonshineMesh.SyncRest (rp : RenderParam) (mesh_changed : Bool)
    (r : MeshRecord) (d : DirtyBits) (s : MeshSceneData) (m : Msne) : MeshSyncResult :=
  let old_visibility := r.visible
  let pv := visibilityBlock r d s
  let new_visibility := pv.1.visible
  let material_changed := pv.2.materialId
  let pm := materialBlock rp pv.1 pv.2 s
  let transform_changed := pm.2.transform || pm.2.instancer
  let pt := transformBlock pm.1 pm.2 s
  let instancer_count_changed := false
  let _inner := pt.1.instancesTransforms.length ≠ (newInstancerTransforms s).length
  let pi2 := instancerBlock pt.1 pt.2 s
  let r2 := pi2.1
  let d2 := pi2.2
  let need_to_recreate := mesh_changed || instancer_count_changed || material_changed
  if need_to_recreate then
    let p := rebuildInstances r2 new_visibility m
    ⟨{ r2 with instances := p.1 }, d2,
     if d2.isClean then p.2 else leftoverDirtyReport p.2⟩
  else
    let m := if transform_changed then updateInstanceTransforms r2 m else m
    let m := if old_visibility != new_visibility then updateInstanceVisibility r2 new_visibility m else m
    ⟨r2, d2, if d2.isClean then m else leftoverDirtyReport m⟩

/-- HdMoonshineMesh::Sync (mesh.cpp:103-275).  The points block
(mesh.cpp:112-180): prefer computed/animated points, fall back to authored
points, and return from the whole sync (record and dirty bits untouched)
when both are empty; otherwise unindex the points via the triangle indices,
gather texcoords and normals, create the mesh, and clear the points bit. -/
def HdMoonshineMesh.Sync (rp : RenderParam) (r : MeshRecord) (d : DirtyBits)
    (s : MeshSceneData) (m : Msne) : MeshSyncResult :=
  let mesh_changed := d.points
  if d.points then
    let indexedPoints := if s.computedPoints.length != 0 then s.computedPoints else s.authoredPoints
    if indexedPoints.length = 0 then
      ⟨r, d, codingErr m "empty mesh"⟩
    else
      let points := unindexBy ⟨0, 0, 0⟩ indexedPoints s.indices
      let texcoords := pickTexcoords s
      let normals := ComputePrimvar ⟨0, 0, 0⟩ s.normals s.indices
      let q := HdMoonshineCreateMesh m points normals texcoords
      let r := { r with mesh := some q.2 }
      let d := { d with points := false }
      HdMoonshineMesh.SyncRest rp mesh_changed r d s q.1
  else
    HdMoonshineMesh.SyncRest rp mesh_changed r d s m

/-- HdMoonshineMesh::Finalize (mesh.cpp:277-281). -/
def HdMoonshineMesh.Finalize (r : MeshRecord) (m : Msne) : Msne :=
  r.instances.foldl HdMoonshineDestroyInstance m

/-- rgbToRgba (material.cpp:68-74), operating on the byte buffer as a list.
The C++ loop header is `for (size_t i = pixel_count - 1; i-- > 0;)`: the
test reads the counter and then decrements it, so the body runs for
`i = pixel_count - 2` down to `0` (and pixel `pixel_count - 1` is never
copied).  Within a pixel the bytes are copied in increasing `j`, each read
seeing the writes already performed, exactly as the in-place C++ does. -/
def copyPixelBytes (dat : List Nat) (i src_bpp dst_bpp : Nat) : List Nat :=
  (List.range src_bpp).foldl
    (fun dat j => dat.set (dst_bpp * i + j) (dat.getD (src_bpp * i + j) 0)) dat

def rgbToRgba (dat : List Nat) (pixel_count src_bpp dst_bpp : Nat) : List Nat :=
  ((List.range (pixel_count - 1)).reverse).foldl
    (fun dat i => copyPixelBytes dat i src_bpp dst_bpp) dat

/-- Single-channel swizzle extraction (material.cpp:96-104): for each pixel,
copy the `tsize` bytes of the selected channel to the start of the pixel's
1-component slot (`t` below is `j - src_start` in the C++). -/
def swizzleExtract (dat : List Nat) (pixels tsize bpp src_start : Nat) : List Nat :=
  (List.range pixels).foldl
    (fun dat i =>
      (List.range tsize).foldl
        (fun dat t => dat.set (i * tsize + t) (dat.getD (i * bpp + src_start + t) 0)) dat) dat

/-- Two-component normal re-encode (material.cpp:106-113): for each pixel,
copy the first `(bpp/3)*2` bytes to the pixel's 2-component slot. -/
def normalTwoComponent (dat : List Nat) (pixels tsize bpp : Nat) : List Nat :=
  (List.range pixels).foldl
    (fun dat i =>
      (List.range (bpp / 3 * 2)).foldl
        (fun dat j => dat.set (i * tsize * 2 + j) (dat.getD (i * bpp + j) 0)) dat) dat

/-- Tail of the asset branch of makeTexture (material.cpp:120-130): apply the
requested colorspace, map to a moonshine format, and either fail or create
the raw texture. -/
def makeTextureFinish (m : Msne) (dat : List Nat) (width height : Nat)
    (fmt : HioFmt) (colorSpace : String) (debug : String) : Msne × Option Nat :=
  let fmt := hioGetFormat fmt.count fmt.ty (colorSpace == "sRGB")
  match usdFormatToMsneFormat fmt with
  | none => (codingErr m "unknown format", none)
  | some msneFmt =>
    let (m, h) := HdMoonshineCreateRawTexture m dat width height msneFmt (debug ++ " texture")
    (m, some h)

/-- makeTexture (material.cpp:76-146).  For an asset, the buffer is
over-provisioned to 4/3 of the byte size whenever that size is divisible by
3 (material.cpp:89-91); `HioImage::Read` fills the front of it with the
decoded bytes and the over-provisioned tail is the zero-initialized slack of
`std::make_unique<uint8_t[]>`. -/
def makeTexture (m : Msne) (value : Value) (swizzle : String)
    (colorSpace : String) (dst : String) (debug : String) : Msne × Option Nat :=
  match value with
  | .asset img =>
    let bpp := hioTypeSize img.ty * img.count
    let tsize := hioTypeSize img.ty
    let imageSize0 := img.width * img.height * bpp
    let imageSize := if imageSize0 % 3 == 0 then imageSize0 / 3 * 4 else imageSize0
    let dat := (img.bytes.take imageSize0) ++ List.replicate (imageSize - (img.bytes.take imageSize0).length) 0
    let fmt : HioFmt := ⟨img.ty, img.count, img.srgb⟩
    if swizzle == "r" || swizzle == "g" || swizzle == "b" then
      let src_start := (if swizzle == "r" then 0 else if swizzle == "g" then 1 else 2) * tsize
      let dat := swizzleExtract dat (img.width * img.height) tsize bpp src_start
      let fmt := hioGetFormat 1 fmt.ty false
      makeTextureFinish m dat img.width img.height fmt colorSpace debug
    else if img.count == 3 then
      if dst == "normal" then
        let dat := normalTwoComponent dat (img.width * img.height) tsize bpp
        let fmt := hioGetFormat 2 fmt.ty false
        makeTextureFinish m dat img.width img.height fmt colorSpace debug
      else
        let dat := rgbToRgba dat (img.width * img.height) bpp (bpp / 3 * 4)
        makeTextureFinish m dat img.width img.height fmt colorSpace debug
    else
      makeTextureFinish m dat img.width img.height fmt colorSpace debug
  | .vec3 x y z =>
    if dst == "normal" then
      let (m, h) := HdMoonshineCreateSolidTexture2 m ((x + 1) / 2) ((y + 1) / 2) (debug ++ " f32x2")
      (m, some h)
    else
      let (m, h) := HdMoonshineCreateSolidTexture3 m x y z (debug ++ " f32x3")
      (m, some h)
  | .scalar v =>
    let (m, h) := HdMoonshineCreateSolidTexture1 m v (debug ++ " float")
    (m, some h)
  | .unknown => (codingErr m "unknown value type", none)

/-- SetTextureBasedOnValueAndName (material.cpp:148-180). -/
def SetTextureBasedOnValueAndName (m : Msne) (handle : Nat) (name : String)
    (value : Value) (swizzle : String) (colorSpace : String) (debug : String) : Msne × Bool :=
  if name == "ior" then
    (HdMoonshineSetMaterialIOR m handle value.getFloat, true)
  else if name == "useSpecularWorkflow" then
    (m, true)
  else
    match makeTexture m value swizzle colorSpace name (debug ++ " " ++ name) with
    | (m, none) => (codingErr m "could not parse texture", false)
    | (m, some tex) =>
      let m :=
        if name == "diffuseColor" then HdMoonshineSetMaterialColor m handle tex
        else if name == "emissiveColor" then HdMoonshineSetMaterialEmissive m handle tex
        else if name == "normal" then HdMoonshineSetMaterialNormal m handle tex
        else if name == "roughness" then HdMoonshineSetMaterialRoughness m handle tex
        else if name == "metallic" then HdMoonshineSetMaterialMetalness m handle tex
        else m
      (m, true)

/-- One upstream connection as HdMoonshineMaterial::Sync resolves it
(material.cpp:222-235): the upstream Sdr node role, the output
implementation name used as the swizzle, the upstream sourceColorSpace
parameter, and the upstream asset parameter value. -/
structure Connection where
  role : String
  swizzle : String
  colorSpace : String
  fileValue : Value
deriving DecidableEq, Repr

/-- The terminal HdMaterialNode2: type id, input connections and inline
parameters (association lists keyed by input name; the C++ takes `.front()`
of the connection vector, so one connection per name suffices). -/
structure MatNode where
  nodeTypeId : String
  inputConnections : List (String × Connection)
  parameters : List (String × Value)
deriving DecidableEq, Repr

/-- The material resource: either not an HdMaterialNetworkMap at all, or a
network whose surface-terminal resolution (terminals.find(surface) followed
by nodes.find of its upstream path, material.cpp:200-209) gives `none` when
the surface terminal is missing and otherwise the terminal node. -/
inductive MaterialResource where
  | notNetworkMap
  | networkMap (surfaceTerminal : Option MatNode)
deriving DecidableEq, Repr

/-- Sdr shader-type metadata for the terminal type: declared input names in
canonical order and each input's declared default value. -/
structure SdrShaderType where
  inputNames : List String
  defaults : List (String × Value)
deriving DecidableEq, Repr

def lookupAssoc {α : Type} (l : List (String × α)) (k : String) : Option α :=
  (l.find? (fun p => p.1 == k)).map (·.2)

/-- Body of the per-input loop of HdMoonshineMaterial::Sync
(material.cpp:219-247): connection first, then inline parameter, then the
Sdr declared default.  The Bool is the outcome SetTextureBasedOnValueAndName
reports (the C++ discards it); the unknown-connection branch reports a
coding error and binds nothing. -/
def processInput (sdr : SdrShaderType) (handle : Nat) (node : MatNode)
    (ident : String) (m : Msne) (inputName : String) : Msne × Bool :=
  match lookupAssoc node.inputConnections inputName with
  | some con =>
    if con.role == "texture" then
      SetTextureBasedOnValueAndName m handle inputName con.fileValue con.swizzle con.colorSpace ident
    else
      (codingErr m "unknown connection", false)
  | none =>
    match lookupAssoc node.parameters inputName with
    | some value =>
      SetTextureBasedOnValueAndName m handle inputName value "" "raw" (ident ++ " parameter")
    | none =>
      let value := (lookupAssoc sdr.defaults inputName).getD Value.unknown
      SetTextureBasedOnValueAndName m handle inputName value "" "raw" (ident ++ " default")

/-- The whole input loop, also collecting each input's outcome in order. -/
def processInputs (sdr : SdrShaderType) (handle : Nat) (node : MatNode)
    (ident : String) (m : Msne) (names : List String) : Msne × List Bool :=
  names.foldl
    (fun (p : Msne × List Bool) n =>
      let q := processInput sdr handle node ident p.1 n
      (q.1, p.2 ++ [q.2])) (m, [])

/-- Material dirty bits: DirtyParams plus `other` for any remaining bit. -/
structure MatDirty where
  params : Bool
  other : Bool
deriving DecidableEq, Repr

def MatDirty.isClean (d : MatDirty) : Bool := !d.params && !d.other

/-- HdMoonshineMaterial::Sync (material.cpp:182-255).  The three early
returns (non-network resource, missing surface terminal, unsupported
terminal type) leave the dirty bits untouched and skip the final IsClean
check; the successful path runs the input loop, clears DirtyParams, and
falls through to the check. -/
def HdMoonshineMaterial.Sync (sdr : SdrShaderType) (handle : Nat) (ident : String)
    (d : MatDirty) (resource : MaterialResource) (m : Msne) : MatDirty × Msne :=
  if d.params then
    match resource with
    | .notNetworkMap => (d, codingErr m "unknown resource type")
    | .networkMap terminal =>
      match terminal with
      | none => (d, codingErr m "did not find surface connection")
      | some node =>
        if node.nodeTypeId == "UsdPreviewSurface" then
          let m := (processInputs sdr handle node ident m sdr.inputNames).1
          let d := { d with params := false }
          if d.isClean then (d, m) else (d, leftoverDirtyReport m)
        else
          (d, codingErr m "unknown node")
  else
    if d.isClean then (d, m) else (d, leftoverDirtyReport m)

/-- HdMoonshineMaterial constructor (material.cpp:30-40): eagerly creates the
material handle from the render param defaults. -/
def mkMaterialRecord (rp : RenderParam) (m : Msne) : Nat × Msne :=
  let (m, h) := HdMoonshineCreateMaterial m
    { normal := rp.upNormal, emissive := rp.black3, color := rp.grey3,
      metalness := rp.black1, roughness := rp.white1, ior := 3/2 }
  (h, m)

/-- HdMoonshineMaterial::GetInitialDirtyBitsMask (material.cpp:44-46). -/
def materialInitialDirtyBitsMask : MatDirty := ⟨true, false⟩


/-! Fixtures and trace predicates used by the claim theorems. -/

def Event.isInstanceChurn : Event → Bool
  | .createInstance _ _ _ _ _ => true
  | .destroyInstance _ => true
  | _ => false

def Event.isOobTransformSet : Event → Bool
  | .setInstanceTransform none _ => true
  | _ => false

/-- Events that would release a mesh or a texture handle. -/
def Event.releasesMeshOrTexture : Event → Bool
  | .destroyMesh _ => true
  | .destroyTexture _ => true
  | _ => false

/-- No call in the trace releases a mesh or texture handle. -/
def Msne.noReleases (m : Msne) : Prop :=
  ∀ e ∈ m.events, e.releasesMeshOrTexture = false

/-- A render param with distinct concrete default handles, for witnesses. -/
def rp0 : RenderParam := ⟨0, 1, 2, 3, 4, 5⟩

/-- A renderer state with an empty trace, for witnesses. -/
def msne0 : Msne := ⟨100, []⟩

/-- One triangle, authored points only, no instancer, no binding. -/
def sceneNoInst : MeshSceneData :=
  { indices := [(0, 1, 2)], computedPoints := [],
    authoredPoints := [⟨0, 0, 0⟩, ⟨1, 0, 0⟩, ⟨0, 1, 0⟩],
    st := ⟨none, none, []⟩, st0 := ⟨none, none, []⟩, normals := ⟨none, none, []⟩,
    transform := mat4Id, visible := true, materialBinding := none,
    instancerId := none, instancerTransforms := [] }

/-- Same scene with a point instancer resolving to two transforms. -/
def sceneInst2 : MeshSceneData :=
  { sceneNoInst with instancerId := some (), instancerTransforms := [mat4Id, mat4Id] }

def rec5 : MeshRecord :=
  { mesh := some 9, material := 7, transform := mat4Id,
    instancesTransforms := [mat4Id], instances := [11], visible := true }

def rec7 : MeshRecord :=
  { mesh := some 9, material := 5, transform := mat4Id,
    instancesTransforms := [mat4Id, mat4Id], instances := [11, 12], visible := true }

/-- Shader-type metadata fixture: three inputs. -/
def sdr0 : SdrShaderType :=
  { inputNames := ["diffuseColor", "roughness", "ior"],
    defaults := [("diffuseColor", .vec3 (3/16) (3/16) (3/16)),
                 ("roughness", .scalar (1/2)), ("ior", .scalar (3/2))] }

/-- Terminal node fixture: first input has an unsupported upstream role so
its processing fails; the second is an inline parameter; the third falls to
the declared default. -/
def node0 : MatNode :=
  { nodeTypeId := "UsdPreviewSurface",
    inputConnections := [("diffuseColor", ⟨"math", "", "raw", .unknown⟩)],
    parameters := [("roughness", .scalar (1/4))] }

/-! Helper lemmas. -/

/-- Folding an emit-only step over an index range appends the mapped events. -/
lemma range_foldl_emit (g : Nat → Event) :
    ∀ (n : Nat) (m : Msne),
      (List.range n).foldl (fun m i => m.emit (g i)) m
        = ⟨m.nextHandle, m.events ++ (List.range n).map g⟩ := by
  intro n
  induction n with
  | zero => intro m; simp
  | succ k ih =>
    intro m
    rw [List.range_succ, List.foldl_append, ih]
    simp [Msne.emit]

/-- Indexed enumeration of two equal-length lists is their zip. -/
lemma range_map_zip {β : Type} (g : Option Nat → β → Event) (dflt : β) :
    ∀ (l2 : List β) (l1 : List Nat), l1.length = l2.length →
      (List.range l2.length).map (fun i => g l1[i]? (l2[i]?.getD dflt))
        = (l1.zip l2).map (fun p => g (some p.1) p.2) := by
  intro l2
  induction l2 with
  | nil => intro l1 h; simp
  | cons t ts ih =>
    intro l1 h
    cases l1 with
    | nil => simp at h
    | cons a as =>
      simp only [List.length_cons] at h
      simp only [List.length_cons, List.range_succ_eq_map]
      simp only [List.map_cons, List.map_map]
      rw [List.zip_cons_cons, List.map_cons]
      congr 1
      · simp
      · have hfun : ((fun i => g (a :: as)[i]? ((t :: ts)[i]?.getD dflt)) ∘ Nat.succ)
            = (fun i => g as[i]? (ts[i]?.getD dflt)) := by
          funext i
          simp [Function.comp, List.getElem?_cons_succ]
        rw [hfun]
        exact ih as (by omega)

/-- The outcome accumulator of the input loop only ever grows at the end. -/
lemma processInputs_acc (sdr : SdrShaderType) (handle : Nat) (node : MatNode) (ident : String) :
    ∀ (names : List String) (m : Msne) (acc : List Bool),
      names.foldl
        (fun (p : Msne × List Bool) n =>
          ((processInput sdr handle node ident p.1 n).1,
           p.2 ++ [(processInput sdr handle node ident p.1 n).2])) (m, acc)
      = ((processInputs sdr handle node ident m names).1,
         acc ++ (processInputs sdr handle node ident m names).2) := by
  intro names
  induction names with
  | nil => intro m acc; simp [processInputs]
  | cons n ns ih =>
    intro m acc
    simp only [processInputs, List.foldl_cons, List.nil_append]
    rw [ih, ih (processInput sdr handle node ident m n).1 [(processInput sdr handle node ident m n).2]]
    simp

/-- Peeling one input off the loop. -/
lemma processInputs_cons (sdr : SdrShaderType) (handle : Nat) (node : MatNode) (ident : String)
    (m : Msne) (n : String) (ns : List String) :
    processInputs sdr handle node ident m (n :: ns)
      = ((processInputs sdr handle node ident (processInput sdr handle node ident m n).1 ns).1,
         (processInput sdr handle node ident m n).2
           :: (processInputs sdr handle node ident (processInput sdr handle node ident m n).1 ns).2) := by
  simp only [processInputs, List.foldl_cons, List.nil_append]
  rw [processInputs_acc sdr handle node ident ns (processInput sdr handle node ident m n).1
    [(processInput sdr handle node ident m n).2]]
  simp [processInputs]

/-- Splitting the input list splits the loop: the suffix is processed from
the state the prefix left, whatever the prefix's outcomes were. -/
lemma processInputs_append (sdr : SdrShaderType) (handle : Nat) (node : MatNode) (ident : String) :
    ∀ (xs : List String) (m : Msne) (ys : List String),
      processInputs sdr handle node ident m (xs ++ ys)
        = ((processInputs sdr handle node ident (processInputs sdr handle node ident m xs).1 ys).1,
           (processInputs sdr handle node ident m xs).2
             ++ (processInputs sdr handle node ident (processInputs sdr handle node ident m xs).1 ys).2) := by
  intro xs
  induction xs with
  | nil => intro m ys; simp [processInputs]
  | cons x xs ih =>
    intro m ys
    rw [List.cons_append, processInputs_cons, processInputs_cons, ih]
    simp

/-- One outcome per declared input. -/
lemma processInputs_length (sdr : SdrShaderType) (handle : Nat) (node : MatNode) (ident : String) :
    ∀ (names : List String) (m : Msne),
      (processInputs sdr handle node ident m names).2.length = names.length := by
  intro names
  induction names with
  | nil => intro m; simp [processInputs]
  | cons n ns ih =>
    intro m
    rw [processInputs_cons]
    simp [ih]

lemma noReleases_emit {m : Msne} {e : Event}
    (hm : m.noReleases) (he : e.releasesMeshOrTexture = false) : (m.emit e).noReleases := by
  intro x hx
  rcases List.mem_append.mp hx with h | h
  · exact hm x h
  · rcases List.mem_singleton.mp h with rfl
    exact he

lemma noReleases_foldl_proj {σ α : Type} (π : σ → Msne) (f : σ → α → σ)
    (hf : ∀ s a, (π s).noReleases → (π (f s a)).noReleases) :
    ∀ (l : List α) (s : σ), (π s).noReleases → (π (l.foldl f s)).noReleases := by
  intro l
  induction l with
  | nil => intro s h; exact h
  | cons a as ih => intro s h; exact ih (f s a) (hf s a h)

lemma noReleases_makeTexture (m : Msne) (value : Value) (swizzle colorSpace dst debug : String)
    (hm : m.noReleases) : (makeTexture m value swizzle colorSpace dst debug).1.noReleases := by
  cases value with
  | asset img =>
    simp only [makeTexture]
    repeat' split
    all_goals
      simp only [makeTextureFinish]
    all_goals
      split
    all_goals
      exact noReleases_emit hm rfl
  | vec3 x y z =>
    simp only [makeTexture]
    split <;> exact noReleases_emit hm rfl
  | scalar v => exact noReleases_emit hm rfl
  | unknown => exact noReleases_emit hm rfl

lemma noReleases_SetTexture (m : Msne) (handle : Nat) (name : String)
    (value : Value) (swizzle colorSpace debug : String) (hm : m.noReleases) :
    (SetTextureBasedOnValueAndName m handle name value swizzle colorSpace debug).1.noReleases := by
  simp only [SetTextureBasedOnValueAndName]
  split
  · exact noReleases_emit hm rfl
  · split
    · exact hm
    · split
      next heq =>
        have hmk := noReleases_makeTexture m value swizzle colorSpace name (debug ++ " " ++ name) hm
        rw [heq] at hmk
        exact noReleases_emit hmk rfl
      next mt tex heq =>
        have hmk := noReleases_makeTexture m value swizzle colorSpace name (debug ++ " " ++ name) hm
        rw [heq] at hmk
        repeat' split
        all_goals first
          | exact noReleases_emit hmk rfl
          | exact hmk

lemma noReleases_processInput (sdr : SdrShaderType) (handle : Nat) (node : MatNode)
    (ident : String) (m : Msne) (n : String) (hm : m.noReleases) :
    (processInput sdr handle node ident m n).1.noReleases := by
  simp only [processInput]
  split
  · split
    · exact noReleases_SetTexture _ _ _ _ _ _ _ hm
    · exact noReleases_emit hm rfl
  · split
    · exact noReleases_SetTexture _ _ _ _ _ _ _ hm
    · exact noReleases_SetTexture _ _ _ _ _ _ _ hm

lemma noReleases_processInputs (sdr : SdrShaderType) (handle : Nat) (node : MatNode)
    (ident : String) (m : Msne) (names : List String) (hm : m.noReleases) :
    (processInputs sdr handle node ident m names).1.noReleases := by
  have := noReleases_foldl_proj (fun (p : Msne × List Bool) => p.1)
    (fun (p : Msne × List Bool) n =>
      ((processInput sdr handle node ident p.1 n).1,
       p.2 ++ [(processInput sdr handle node ident p.1 n).2]))
    (fun p n hp => noReleases_processInput sdr handle node ident p.1 n hp)
    names (m, []) hm
  simpa [processInputs] using this

lemma noReleases_materialSync (sdr : SdrShaderType) (handle : Nat) (ident : String)
    (d : MatDirty) (resource : MaterialResource) (m : Msne) (hm : m.noReleases) :
    (HdMoonshineMaterial.Sync sdr handle ident d resource m).2.noReleases := by
  simp only [HdMoonshineMaterial.Sync]
  repeat' split
  all_goals
    first
      | exact hm
      | exact noReleases_emit hm rfl
      | exact noReleases_processInputs sdr handle _ ident m sdr.inputNames hm
      | exact noReleases_emit (noReleases_processInputs sdr handle _ ident m sdr.inputNames hm) rfl

lemma noReleases_rebuildInstances (r : MeshRecord) (vis : Bool) (m : Msne) (hm : m.noReleases) :
    (rebuildInstances r vis m).2.noReleases := by
  have hd : (r.instances.foldl HdMoonshineDestroyInstance m).noReleases :=
    noReleases_foldl_proj (fun x => x) HdMoonshineDestroyInstance
      (fun _ _ hs => noReleases_emit hs rfl) r.instances m hm
  exact noReleases_foldl_proj (fun (p : List Nat × Msne) => p.2)
    (fun (p : List Nat × Msne) t =>
      (p.1 ++ [(HdMoonshineCreateInstance p.2 (toMat3x4 (mat4Mul r.transform t)) r.mesh r.material vis).2],
       (HdMoonshineCreateInstance p.2 (toMat3x4 (mat4Mul r.transform t)) r.mesh r.material vis).1))
    (fun p t hp => noReleases_emit hp rfl)
    r.instancesTransforms ([], r.instances.foldl HdMoonshineDestroyInstance m) hd

lemma noReleases_updateInstanceTransforms (r : MeshRecord) (m : Msne) (hm : m.noReleases) :
    (updateInstanceTransforms r m).noReleases :=
  noReleases_foldl_proj (fun x => x)
    (fun m i => HdMoonshineSetInstanceTransform m r.instances[i]?
      (toMat3x4 (mat4Mul r.transform (r.instancesTransforms.getD i mat4Id))))
    (fun _ _ hs => noReleases_emit hs rfl) _ m hm

lemma noReleases_updateInstanceVisibility (r : MeshRecord) (vis : Bool) (m : Msne) (hm : m.noReleases) :
    (updateInstanceVisibility r vis m).noReleases :=
  noReleases_foldl_proj (fun x => x)
    (fun m h => HdMoonshineSetInstanceVisibility m h vis)
    (fun _ _ hs => noReleases_emit hs rfl) r.instances m hm

lemma noReleases_meshSyncRest (rp : RenderParam) (mesh_changed : Bool) (r : MeshRecord)
    (d : DirtyBits) (s : MeshSceneData) (m : Msne) (hm : m.noReleases) :
    (HdMoonshineMesh.SyncRest rp mesh_changed r d s m).msne.noReleases := by
  simp only [HdMoonshineMesh.SyncRest]
  split
  · split
    · exact noReleases_rebuildInstances _ _ _ hm
    · exact noReleases_emit (noReleases_rebuildInstances _ _ _ hm) rfl
  · repeat' split
    all_goals first
      | exact hm
      | exact noReleases_emit hm rfl
      | exact noReleases_updateInstanceTransforms _ _ hm
      | exact noReleases_emit (noReleases_updateInstanceTransforms _ _ hm) rfl
      | exact noReleases_updateInstanceVisibility _ _ _ hm
      | exact noReleases_emit (noReleases_updateInstanceVisibility _ _ _ hm) rfl
      | exact noReleases_updateInstanceVisibility _ _ _ (noReleases_updateInstanceTransforms _ _ hm)
      | exact noReleases_emit (noReleases_updateInstanceVisibility _ _ _ (noReleases_updateInstanceTransforms _ _ hm)) rfl

lemma noReleases_meshSync (rp : RenderParam) (r : MeshRecord) (d : DirtyBits)
    (s : MeshSceneData) (m : Msne) (hm : m.noReleases) :
    (HdMoonshineMesh.Sync rp r d s m).msne.noReleases := by
  simp only [HdMoonshineMesh.Sync]
  repeat' split
  all_goals first
    | exact noReleases_meshSyncRest _ _ _ _ _ _ hm
    | exact noReleases_emit hm rfl
    | exact noReleases_meshSyncRest _ _ _ _ _ _ (noReleases_emit hm rfl)

/-! Claim theorems. -/

/-- First sync of the count-change scenario: fresh record, full initial
mask, instancer resolving two transforms (creates two instances). -/
def growFirst : MeshSyncResult :=
  HdMoonshineMesh.Sync rp0 (mkMeshRecord rp0) GetInitialDirtyBitsMask sceneInst2 msne0

/-- Second sync of the count-change scenario: only the instancer bit dirty,
with the instancer now resolving three transforms. -/
def growSecond : MeshSyncResult :=
  HdMoonshineMesh.Sync rp0 growFirst.prim ⟨false, false, true, false, false, false⟩
    { sceneInst2 with instancerTransforms := [mat4Id, mat4Id, mat4Id] } growFirst.msne

/-- Claim C1 (code bug): an instancer-only sync whose per-instance transform
list grows from 2 to 3 (geometry and material binding unchanged) is claimed
to destroy every instance handle and recreate one per transform.  Because
mesh.cpp:231 re-declares `instancer_count_changed` inside the if block,
shadowing the flag from mesh.cpp:216, `need_to_recreate` never sees the
count change: the sync keeps the two old handles, emits no destroy or create
call, and instead issues in-place transform updates, indexing the third
transform out of bounds (the `none`-handle event). -/
theorem instancer_count_change_not_rebuilt :
    growFirst.prim.instances.length = 2 ∧
    growSecond.prim.instancesTransforms.length = 3 ∧
    growSecond.prim.instances = growFirst.prim.instances ∧
    (growSecond.msne.events.drop growFirst.msne.events.length).all
      (fun e => !e.isInstanceChurn) = true ∧
    growSecond.msne.events.any Event.isOobTransformSet = true := by
  decide

/-- Claim C2, counterexample: a first sync with exactly the dirty set
{points, transform, visibility, materialId} (no instancer bit) ends with
every dirty flag clear but zero instance handles, not one: the single
identity transform is only pushed inside the `IsInstancerDirty` branch
(mesh.cpp:218-233), which this dirty set never enters. -/
theorem first_sync_without_instancer_bit_no_instance :
    let res := HdMoonshineMesh.Sync rp0 (mkMeshRecord rp0)
      ⟨true, true, false, true, true, false⟩ sceneNoInst msne0
    res.dirty = ⟨false, false, false, false, false, false⟩ ∧
    res.prim.instances.length = 0 ∧ ¬ res.prim.instances.length = 1 := by
  decide

/-- Claim C2, amended: a mesh synced for the first time with the full
initial dirty mask of GetInitialDirtyBitsMask (points, transform, instancer,
visibility, materialId), no instancer bound, non-empty authored points, no
authored normals or texcoords, and no material binding ends with zero dirty
flags, exactly one instance handle, and a geometry handle built from the
triangulated unindexed points with empty normal and texcoord arrays. -/
theorem first_sync_initial_mask_one_instance (rp : RenderParam) (s : MeshSceneData) (m : Msne)
    (hc : s.computedPoints = []) (ha : s.authoredPoints ≠ [])
    (hst : s.st.interp = none) (hst0 : s.st0.interp = none)
    (hn : s.normals.value = none)
    (hb : s.materialBinding = none) (hi : s.instancerId = none) :
    (HdMoonshineMesh.Sync rp (mkMeshRecord rp) GetInitialDirtyBitsMask s m).dirty
      = ⟨false, false, false, false, false, false⟩ ∧
    (HdMoonshineMesh.Sync rp (mkMeshRecord rp) GetInitialDirtyBitsMask s m).prim.instances.length = 1 ∧
    (HdMoonshineMesh.Sync rp (mkMeshRecord rp) GetInitialDirtyBitsMask s m).prim.mesh = some m.nextHandle ∧
    (HdMoonshineMesh.Sync rp (mkMeshRecord rp) GetInitialDirtyBitsMask s m).msne.events
      = m.events
        ++ [Event.createMesh m.nextHandle (unindexBy ⟨0, 0, 0⟩ s.authoredPoints s.indices) [] [],
            Event.createInstance (m.nextHandle + 1) (toMat3x4 (mat4Mul s.transform mat4Id))
              (some m.nextHandle) rp.defaultMaterial s.visible] := by
  have ha' : ¬ s.authoredPoints.length = 0 := by
    simpa [List.length_eq_zero] using ha
  simp [HdMoonshineMesh.Sync, HdMoonshineMesh.SyncRest, GetInitialDirtyBitsMask,
    mkMeshRecord, hc, ha', hst, hst0, hn, hb, hi, pickTexcoords, ComputePrimvar,
    visibilityBlock, materialBlock, transformBlock, instancerBlock,
    newInstancerTransforms, rebuildInstances,
    HdMoonshineCreateMesh, HdMoonshineCreateInstance, Msne.fresh, Msne.emit,
    DirtyBits.isClean]

/-- Witness for first_sync_initial_mask_one_instance at a concrete one-
triangle scene. -/
theorem first_sync_initial_mask_one_instance_witness :
    (sceneNoInst.computedPoints = [] ∧ sceneNoInst.authoredPoints ≠ [] ∧
     sceneNoInst.st.interp = none ∧ sceneNoInst.st0.interp = none ∧
     sceneNoInst.normals.value = none ∧ sceneNoInst.materialBinding = none ∧
     sceneNoInst.instancerId = none) ∧
    ((HdMoonshineMesh.Sync rp0 (mkMeshRecord rp0) GetInitialDirtyBitsMask sceneNoInst msne0).dirty
      = ⟨false, false, false, false, false, false⟩ ∧
     (HdMoonshineMesh.Sync rp0 (mkMeshRecord rp0) GetInitialDirtyBitsMask sceneNoInst msne0).prim.instances.length = 1 ∧
     (HdMoonshineMesh.Sync rp0 (mkMeshRecord rp0) GetInitialDirtyBitsMask sceneNoInst msne0).prim.mesh = some msne0.nextHandle ∧
     (HdMoonshineMesh.Sync rp0 (mkMeshRecord rp0) GetInitialDirtyBitsMask sceneNoInst msne0).msne.events
      = msne0.events
        ++ [Event.createMesh msne0.nextHandle (unindexBy ⟨0, 0, 0⟩ sceneNoInst.authoredPoints sceneNoInst.indices) [] [],
            Event.createInstance (msne0.nextHandle + 1) (toMat3x4 (mat4Mul sceneNoInst.transform mat4Id))
              (some msne0.nextHandle) rp0.defaultMaterial sceneNoInst.visible]) :=
  ⟨by decide,
   first_sync_initial_mask_one_instance rp0 sceneNoInst msne0 (by decide) (by decide) (by decide) (by decide)
     (by decide) (by decide) (by decide)⟩

/-- Claim C3 (code bug): rgbToRgba is claimed to preserve every source pixel
at its 4-component offset.  Evaluating at a 2-pixel RGB buffer
(1,2,3)(4,5,6) padded to 8 bytes: the loop header
`for (size_t i = pixel_count - 1; i-- > 0;)` (material.cpp:69) skips the
last pixel, so the byte at offset 4 stays 5 instead of receiving 4; the
4/3 buffer-length part of the claim does hold. -/
theorem rgbToRgba_last_pixel_not_copied :
    rgbToRgba [1, 2, 3, 4, 5, 6, 0, 0] 2 3 4 = [1, 2, 3, 4, 5, 6, 0, 0] ∧
    (rgbToRgba [1, 2, 3, 4, 5, 6, 0, 0] 2 3 4).getD (4 * 1 + 0) 0 = 5 ∧
    ¬ (rgbToRgba [1, 2, 3, 4, 5, 6, 0, 0] 2 3 4).getD (4 * 1 + 0) 0 = 4 ∧
    (rgbToRgba [1, 2, 3, 4, 5, 6, 0, 0] 2 3 4).length = 6 / 3 * 4 := by
  decide

/-- First sync of the invariant scenario: instancer resolving one
transform (creates one instance). -/
def invFirst : MeshSyncResult :=
  HdMoonshineMesh.Sync rp0 (mkMeshRecord rp0) GetInitialDirtyBitsMask
    { sceneNoInst with instancerId := some (), instancerTransforms := [mat4Id] } msne0

/-- Second sync of the invariant scenario: only the instancer bit dirty,
with the instancer now resolving two transforms. -/
def invSecond : MeshSyncResult :=
  HdMoonshineMesh.Sync rp0 invFirst.prim ⟨false, false, true, false, false, false⟩
    { sceneNoInst with instancerId := some (), instancerTransforms := [mat4Id, mat4Id] } invFirst.msne

/-- Claim C4 (code bug): the invariant `len(instance handles) =
len(instance transforms)` is claimed to hold whenever a sync call has
returned.  After an instancer-only sync growing the transform list from 1
to 2, the record holds 1 instance handle but 2 transforms, because the
shadowed `instancer_count_changed` flag (mesh.cpp:231 vs mesh.cpp:216)
suppresses the rebuild. -/
theorem instance_handle_count_diverges_from_transforms :
    invFirst.prim.instances.length = invFirst.prim.instancesTransforms.length ∧
    ¬ invSecond.prim.instances.length = invSecond.prim.instancesTransforms.length := by
  decide

/-- Claim C5, counterexample: after binding a realized material (handle 7),
a material-dirty sync whose binding refers to a not-yet-realized material
sprim keeps `_material = 7` instead of resolving to the context default
(mesh.cpp:196-201 only assigns when the sprim lookup succeeds). -/
theorem unrealized_material_keeps_previous_handle :
    let first := HdMoonshineMesh.Sync rp0 (mkMeshRecord rp0) GetInitialDirtyBitsMask
      { sceneNoInst with materialBinding := some (some 7) } msne0
    let second := HdMoonshineMesh.Sync rp0 first.prim ⟨false, false, false, false, true, false⟩
      { sceneNoInst with materialBinding := some none } first.msne
    first.prim.material = 7 ∧
    second.dirty.materialId = false ∧
    second.prim.material = 7 ∧
    rp0.defaultMaterial = 5 ∧
    ¬ second.prim.material = rp0.defaultMaterial := by
  decide

/-- Claim C5, amended: when the material-binding dirty flag is set (and the
sync is not abandoned by the empty-points early return), the flag is always
cleared; an empty binding resolves to the context default material; a
binding whose material entity is not yet realized leaves the handle at its
previous value (which is the default if none was ever resolved, since the
record is constructed with the default); a realized binding takes its
handle. -/
theorem material_binding_resolution (rp : RenderParam) (r : MeshRecord) (d : DirtyBits)
    (s : MeshSceneData) (m : Msne)
    (hd : d.materialId = true)
    (hnoabort : d.points = true → (s.computedPoints ≠ [] ∨ s.authoredPoints ≠ [])) :
    (HdMoonshineMesh.Sync rp r d s m).dirty.materialId = false ∧
    (s.materialBinding = none →
      (HdMoonshineMesh.Sync rp r d s m).prim.material = rp.defaultMaterial) ∧
    (s.materialBinding = some none →
      (HdMoonshineMesh.Sync rp r d s m).prim.material = r.material) ∧
    (∀ h, s.materialBinding = some (some h) →
      (HdMoonshineMesh.Sync rp r d s m).prim.material = h) := by
  obtain ⟨dp, dt, di, dv, dm, dro⟩ := d
  simp only at hd
  subst hd
  have hmat : ∀ (r' : MeshRecord) (m' : Msne) (mc : Bool),
      (HdMoonshineMesh.SyncRest rp mc r' ⟨false, dt, di, dv, true, dro⟩ s m').dirty.materialId = false ∧
      (s.materialBinding = none →
        (HdMoonshineMesh.SyncRest rp mc r' ⟨false, dt, di, dv, true, dro⟩ s m').prim.material = rp.defaultMaterial) ∧
      (s.materialBinding = some none →
        (HdMoonshineMesh.SyncRest rp mc r' ⟨false, dt, di, dv, true, dro⟩ s m').prim.material = r'.material) ∧
      (∀ h, s.materialBinding = some (some h) →
        (HdMoonshineMesh.SyncRest rp mc r' ⟨false, dt, di, dv, true, dro⟩ s m').prim.material = h) := by
    intro r' m' mc
    cases hbind : s.materialBinding with
    | none =>
      cases dt <;> cases di <;> cases dv <;> cases dro <;> cases mc <;>
        simp [HdMoonshineMesh.SyncRest, hbind, DirtyBits.isClean,
          visibilityBlock, materialBlock, transformBlock, instancerBlock, rebuildInstances]
    | some o =>
      cases o with
      | none =>
        cases dt <;> cases di <;> cases dv <;> cases dro <;> cases mc <;>
          simp [HdMoonshineMesh.SyncRest, hbind, DirtyBits.isClean,
            visibilityBlock, materialBlock, transformBlock, instancerBlock, rebuildInstances]
      | some h =>
        cases dt <;> cases di <;> cases dv <;> cases dro <;> cases mc <;>
          simp [HdMoonshineMesh.SyncRest, hbind, DirtyBits.isClean,
            visibilityBlock, materialBlock, transformBlock, instancerBlock, rebuildInstances]
  cases dp with
  | false =>
    have := hmat r m false
    simpa [HdMoonshineMesh.Sync] using this
  | true =>
    rcases hnoabort rfl with hne | hne
    · have hlen : ¬ s.computedPoints.length = 0 := by simpa [List.length_eq_zero] using hne
      simpa [HdMoonshineMesh.Sync, hlen] using hmat _ _ true
    · by_cases hcl : s.computedPoints.length = 0
      · have hlen : ¬ s.authoredPoints.length = 0 := by simpa [List.length_eq_zero] using hne
        simpa [HdMoonshineMesh.Sync, hcl, hlen] using hmat _ _ true
      · simpa [HdMoonshineMesh.Sync, hcl] using hmat _ _ true

/-- Witness for material_binding_resolution with an unrealized binding on a
record previously holding material 7. -/
theorem material_binding_resolution_witness :
    ((⟨false, false, false, false, true, false⟩ : DirtyBits).materialId = true ∧
     { sceneNoInst with materialBinding := some none }.materialBinding = some none) ∧
    ((HdMoonshineMesh.Sync rp0 rec5 ⟨false, false, false, false, true, false⟩
        { sceneNoInst with materialBinding := some none } msne0).dirty.materialId = false ∧
     (HdMoonshineMesh.Sync rp0 rec5 ⟨false, false, false, false, true, false⟩
        { sceneNoInst with materialBinding := some none } msne0).prim.material = rec5.material) :=
  ⟨by decide,
   (material_binding_resolution rp0 rec5 ⟨false, false, false, false, true, false⟩
      { sceneNoInst with materialBinding := some none } msne0 (by decide)
      (fun h => by simp at h)).1,
   ((material_binding_resolution rp0 rec5 ⟨false, false, false, false, true, false⟩
      { sceneNoInst with materialBinding := some none } msne0 (by decide)
      (fun h => by simp at h)).2.2.1 (by decide))⟩

/-- Claim C6: when the points dirty flag is set and both the
computed/animated point source and the authored points are empty, the sync
is abandoned: record and dirty bits are untouched (so no mesh-creation call
happens and the geometry handle keeps its previous value) and only the
empty-mesh diagnostic is emitted (mesh.cpp:139-142). -/
theorem empty_points_abandons_geometry_sync (rp : RenderParam) (r : MeshRecord) (d : DirtyBits)
    (s : MeshSceneData) (m : Msne)
    (hp : d.points = true) (hc : s.computedPoints = []) (ha : s.authoredPoints = []) :
    (HdMoonshineMesh.Sync rp r d s m).prim = r ∧
    (HdMoonshineMesh.Sync rp r d s m).dirty = d ∧
    (HdMoonshineMesh.Sync rp r d s m).msne.events
      = m.events ++ [Event.codingError "empty mesh"] := by
  simp [HdMoonshineMesh.Sync, hp, hc, ha, codingErr, Msne.emit]

/-- Witness for empty_points_abandons_geometry_sync at a scene with no
point data. -/
theorem empty_points_abandons_geometry_sync_witness :
    (GetInitialDirtyBitsMask.points = true ∧
     { sceneNoInst with authoredPoints := [] }.computedPoints = [] ∧
     { sceneNoInst with authoredPoints := [] }.authoredPoints = []) ∧
    ((HdMoonshineMesh.Sync rp0 (mkMeshRecord rp0) GetInitialDirtyBitsMask
        { sceneNoInst with authoredPoints := [] } msne0).prim = mkMeshRecord rp0 ∧
     (HdMoonshineMesh.Sync rp0 (mkMeshRecord rp0) GetInitialDirtyBitsMask
        { sceneNoInst with authoredPoints := [] } msne0).dirty = GetInitialDirtyBitsMask ∧
     (HdMoonshineMesh.Sync rp0 (mkMeshRecord rp0) GetInitialDirtyBitsMask
        { sceneNoInst with authoredPoints := [] } msne0).msne.events
      = msne0.events ++ [Event.codingError "empty mesh"]) :=
  ⟨by decide,
   empty_points_abandons_geometry_sync rp0 (mkMeshRecord rp0) GetInitialDirtyBitsMask
     { sceneNoInst with authoredPoints := [] } msne0 (by decide) (by decide) (by decide)⟩

/-- Claim C7: a sync with only the transform dirty flag set (and the
steady-state handle/transform count agreement) destroys and creates no
instance handle: the trace grows by exactly one in-place transform update
per held instance, setting it to the freshly read entity transform
multiplied by the per-instance transform (mesh.cpp:253-263). -/
theorem transform_only_updates_in_place (rp : RenderParam) (r : MeshRecord) (s : MeshSceneData) (m : Msne)
    (hlen : r.instances.length = r.instancesTransforms.length) :
    (HdMoonshineMesh.Sync rp r ⟨false, true, false, false, false, false⟩ s m).prim.instances
      = r.instances ∧
    (HdMoonshineMesh.Sync rp r ⟨false, true, false, false, false, false⟩ s m).msne.events
      = m.events ++ (r.instances.zip r.instancesTransforms).map
          (fun p => Event.setInstanceTransform (some p.1) (toMat3x4 (mat4Mul s.transform p.2))) := by
  constructor
  · simp [HdMoonshineMesh.Sync, HdMoonshineMesh.SyncRest, DirtyBits.isClean,
      visibilityBlock, materialBlock, transformBlock, instancerBlock]
  · simp [HdMoonshineMesh.Sync, HdMoonshineMesh.SyncRest, DirtyBits.isClean,
      visibilityBlock, materialBlock, transformBlock, instancerBlock,
      updateInstanceTransforms, HdMoonshineSetInstanceTransform, range_foldl_emit]
    exact range_map_zip
      (fun o b => Event.setInstanceTransform o (toMat3x4 (mat4Mul s.transform b)))
      mat4Id r.instancesTransforms r.instances hlen

/-- Witness for transform_only_updates_in_place on a two-instance record. -/
theorem transform_only_updates_in_place_witness :
    (rec7.instances.length = rec7.instancesTransforms.length) ∧
    ((HdMoonshineMesh.Sync rp0 rec7 ⟨false, true, false, false, false, false⟩ sceneNoInst msne0).prim.instances
      = rec7.instances ∧
     (HdMoonshineMesh.Sync rp0 rec7 ⟨false, true, false, false, false, false⟩ sceneNoInst msne0).msne.events
      = msne0.events ++ (rec7.instances.zip rec7.instancesTransforms).map
          (fun p => Event.setInstanceTransform (some p.1) (toMat3x4 (mat4Mul sceneNoInst.transform p.2)))) :=
  ⟨by decide, transform_only_updates_in_place rp0 rec7 sceneNoInst msne0 (by decide)⟩

/-- Claim C8: for a supported terminal node, the material sync processes
exactly the declared input list in order: the outcome list has one entry
per declared input, and splitting the list anywhere shows the suffix is
processed from whatever state the prefix left, regardless of per-input
failures (partial-failure semantics of material.cpp:219-247). -/
theorem material_inputs_processed_in_order (sdr : SdrShaderType) (handle : Nat) (node : MatNode) (ident : String)
    (d : MatDirty) (m : Msne)
    (hd : d.params = true) (ho : d.other = false)
    (hty : node.nodeTypeId = "UsdPreviewSurface") :
    HdMoonshineMaterial.Sync sdr handle ident d (.networkMap (some node)) m
      = (⟨false, false⟩, (processInputs sdr handle node ident m sdr.inputNames).1) ∧
    (processInputs sdr handle node ident m sdr.inputNames).2.length
      = sdr.inputNames.length ∧
    (∀ xs ys, sdr.inputNames = xs ++ ys →
      processInputs sdr handle node ident m sdr.inputNames
        = ((processInputs sdr handle node ident (processInputs sdr handle node ident m xs).1 ys).1,
           (processInputs sdr handle node ident m xs).2
             ++ (processInputs sdr handle node ident (processInputs sdr handle node ident m xs).1 ys).2)) := by
  refine ⟨?_, processInputs_length sdr handle node ident sdr.inputNames m, ?_⟩
  · obtain ⟨dp, dro⟩ := d
    simp only at hd ho
    subst hd; subst ho
    simp [HdMoonshineMaterial.Sync, hty, MatDirty.isClean, processInputs]
  · intro xs ys hsplit
    rw [hsplit]
    exact processInputs_append sdr handle node ident xs m ys

/-- Witness for material_inputs_processed_in_order: three declared inputs
where the first has an unsupported upstream role and fails, while the
remaining two still succeed. -/
theorem material_inputs_processed_in_order_witness :
    ((⟨true, false⟩ : MatDirty).params = true ∧ (⟨true, false⟩ : MatDirty).other = false ∧
     node0.nodeTypeId = "UsdPreviewSurface" ∧
     (processInputs sdr0 50 node0 "mat" ⟨200, []⟩ sdr0.inputNames).2 = [false, true, true]) ∧
    (HdMoonshineMaterial.Sync sdr0 50 "mat" ⟨true, false⟩ (.networkMap (some node0)) ⟨200, []⟩
      = (⟨false, false⟩, (processInputs sdr0 50 node0 "mat" ⟨200, []⟩ sdr0.inputNames).1) ∧
     (processInputs sdr0 50 node0 "mat" ⟨200, []⟩ sdr0.inputNames).2.length
      = sdr0.inputNames.length ∧
     (∀ xs ys, sdr0.inputNames = xs ++ ys →
      processInputs sdr0 50 node0 "mat" ⟨200, []⟩ sdr0.inputNames
        = ((processInputs sdr0 50 node0 "mat" (processInputs sdr0 50 node0 "mat" ⟨200, []⟩ xs).1 ys).1,
           (processInputs sdr0 50 node0 "mat" ⟨200, []⟩ xs).2
             ++ (processInputs sdr0 50 node0 "mat" (processInputs sdr0 50 node0 "mat" ⟨200, []⟩ xs).1 ys).2))) :=
  ⟨by decide,
   material_inputs_processed_in_order sdr0 50 node0 "mat" ⟨true, false⟩ ⟨200, []⟩ rfl rfl rfl⟩

/-- Claim C9: neither mesh sync nor material sync ever issues a renderer
destroy call for a mesh handle or a texture handle: starting from any trace
free of such calls, the trace stays free of them (only instance handles are
ever destroyed). -/
theorem sync_never_releases_mesh_or_texture (rp : RenderParam) (r : MeshRecord) (d : DirtyBits) (s : MeshSceneData)
    (sdr : SdrShaderType) (handle : Nat) (ident : String) (d2 : MatDirty)
    (resource : MaterialResource) (m m2 : Msne)
    (hm : m.noReleases) (hm2 : m2.noReleases) :
    (HdMoonshineMesh.Sync rp r d s m).msne.noReleases ∧
    (HdMoonshineMaterial.Sync sdr handle ident d2 resource m2).2.noReleases :=
  ⟨noReleases_meshSync rp r d s m hm,
   noReleases_materialSync sdr handle ident d2 resource m2 hm2⟩

/-- Witness for sync_never_releases_mesh_or_texture from empty traces. -/
theorem sync_never_releases_mesh_or_texture_witness :
    (msne0.noReleases ∧ Msne.noReleases ⟨200, []⟩) ∧
    ((HdMoonshineMesh.Sync rp0 (mkMeshRecord rp0) GetInitialDirtyBitsMask sceneInst2 msne0).msne.noReleases ∧
     (HdMoonshineMaterial.Sync sdr0 50 "mat" ⟨true, false⟩ (.networkMap (some node0)) ⟨200, []⟩).2.noReleases) :=
  ⟨⟨fun e he => absurd he (List.not_mem_nil e), fun e he => absurd he (List.not_mem_nil e)⟩,
   sync_never_releases_mesh_or_texture rp0 (mkMeshRecord rp0) GetInitialDirtyBitsMask sceneInst2 sdr0 50 "mat"
     ⟨true, false⟩ (.networkMap (some node0)) msne0 ⟨200, []⟩
     (fun e he => absurd he (List.not_mem_nil e)) (fun e he => absurd he (List.not_mem_nil e))⟩

/-- Claim C10: a params-dirty material sync whose resource is not a network
map, lacks a surface terminal, or has an unsupported terminal type returns
early: the dirty bits (params included) are unchanged and the trace grows by
exactly one coding-error diagnostic - no material slot call and no
leftover-dirty report (material.cpp:188-215 return before the final IsClean
check). -/
theorem material_sync_early_return_keeps_params_dirty (sdr : SdrShaderType) (handle : Nat) (ident : String)
    (d : MatDirty) (resource : MaterialResource) (m : Msne)
    (hd : d.params = true)
    (hres : resource = .notNetworkMap ∨ resource = .networkMap none ∨
      ∃ node, resource = .networkMap (some node) ∧ node.nodeTypeId ≠ "UsdPreviewSurface") :
    (HdMoonshineMaterial.Sync sdr handle ident d resource m).1 = d ∧
    ∃ msg, (HdMoonshineMaterial.Sync sdr handle ident d resource m).2
      = m.emit (Event.codingError msg) := by
  rcases hres with h | h | ⟨node, h, hty⟩
  · subst h; simp [HdMoonshineMaterial.Sync, hd, codingErr]
    exact ⟨"unknown resource type", rfl⟩
  · subst h; simp [HdMoonshineMaterial.Sync, hd, codingErr]
    exact ⟨"did not find surface connection", rfl⟩
  · subst h
    simp only [HdMoonshineMaterial.Sync, hd, if_true, codingErr]
    rw [if_neg (by simp [hty])]
    exact ⟨rfl, "unknown node", rfl⟩

theorem material_sync_early_return_keeps_params_dirty_witness :
    ((⟨true, false⟩ : MatDirty).params = true) ∧
    ((HdMoonshineMaterial.Sync sdr0 50 "mat" ⟨true, false⟩ .notNetworkMap ⟨200, []⟩).1
      = ⟨true, false⟩ ∧
     ∃ msg, (HdMoonshineMaterial.Sync sdr0 50 "mat" ⟨true, false⟩ .notNetworkMap ⟨200, []⟩).2
      = Msne.emit ⟨200, []⟩ (Event.codingError msg)) :=
  ⟨rfl,
   material_sync_early_return_keeps_params_dirty sdr0 50 "mat" ⟨true, false⟩ .notNetworkMap ⟨200, []⟩ rfl (Or.inl rfl)⟩
